import Mathlib

/-!
Shallow embedding of `src/monit.py` (Sense HAT uptime monitor).

The program is a single-threaded Python `asyncio` application.  Tasks
interleave only at `await` points, so any run of statements containing no
`await` executes atomically with respect to all other tasks.  The model
below exploits this: the single dictionary assignment
`status_dict[(x, y)] = result` (line 86) is one atomic step, and the pair
of reads in `display_report` (lines 111-112) happens between two `await`
points and therefore observes one single dictionary state.

Python dictionaries are embedded as association lists with unique keys in
insertion order: assigning to an existing key replaces its value in place,
assigning a fresh key appends it at the end, and no key is ever deleted
(the program never deletes from `status_dict`).
-/

namespace Monit

/-- Colors defined at monit.py lines 31-34 as RGB triples. -/
abbrev Color := Int × Int × Int

def RED : Color := (255, 0, 0)

def GREEN : Color := (0, 255, 0)

def YELLOW : Color := (255, 255, 0)

def OFF : Color := (0, 0, 0)

/-- A display-board key `(x, y)`, exactly the tuple used at line 86. -/
abbrev Coord := Int × Int

/-- The `status_dict` Python dictionary: association list in insertion
order with unique keys, mapping a coordinate to the latest boolean check
result. -/
abbrev Board := List (Coord × Bool)

/-- Embedding of the Python dictionary assignment `d[k] = v`: replace the
value of an existing key in place, otherwise append the new key at the
end (Python dicts preserve insertion order). -/
def boardSet : Board → Coord → Bool → Board
  | [], k, v => [(k, v)]
  | p :: rest, k, v => if p.1 == k then (k, v) :: rest else p :: boardSet rest k v

/-- Embedding of the Python dictionary lookup `d.get(k)`. -/
def boardGet : Board → Coord → Option Bool
  | [], _ => none
  | p :: rest, k => if p.1 == k then some p.2 else boardGet rest k

/-- A write event: one CheckLoop storing its probe result under its own
key, `status_dict[(x, y)] = result` at line 86.  In `asyncio` this
assignment contains no `await`, so it is one atomic step of the
interleaving. -/
abbrev WriteEvent := Coord × Bool

/-- The board state after an arbitrary interleaving of atomic writes,
starting from the empty dictionary created at line 129. -/
def applyWrites (ws : List WriteEvent) : Board :=
  ws.foldl (fun b w => boardSet b w.1 w.2) []

/-!
ReportLoop: one iteration of `display_report` (lines 110-122).  Lines
111-115 compute `up_count = sum(1 for status in status_dict.values() if
status)`, `total_count = len(status_dict)`, `down_count = total_count -
up_count` and the message f-string; lines 117-120 choose GREEN when
`up_count == total_count` and RED otherwise, and pass message and colour
to `sense.show_message`.
-/

/-- The outcome of one `display_report` iteration: the computed counts
and the message and text colour handed to `sense.show_message`. -/
structure Report where
  up_count : Nat
  total_count : Nat
  down_count : Nat
  message : String
  colour : Color
  deriving DecidableEq

/-- One iteration of `display_report` over a given board state (the
counts at lines 111-113, the f-string at line 115 and the colour choice
at lines 117-120).  `sum(1 for status in d.values() if status)` is the
length of the filtered value list. -/
def display_report_iter (b : Board) : Report :=
  let u := ((b.map Prod.snd).filter (fun status => status)).length
  let t := b.length
  let d := t - u
  { up_count := u
    total_count := t
    down_count := d
    message := toString u ++ "/" ++ toString t ++ " UP " ++
      toString d ++ "/" ++ toString t ++ " DOWN"
    colour := if u = t then GREEN else RED }

/-!
Per-iteration effect traces.  One pass of the `while True:` body of
`check_host` (lines 75-94) and of `blink_color` (lines 100-104) is
embedded as the ordered list of externally visible actions it performs.
The probe itself is not an effect here: its boolean outcome is the
iteration's input.
-/

/-- An externally visible action of a loop body: a Sense HAT pixel write,
a `status_dict` write, an `asyncio.sleep` call with its argument, or a
scrolled message. -/
inductive Effect where
  | setPixel (px py : Int) (c : Color)
  | boardWrite (k : Coord) (v : Bool)
  | sleep (delay : Int)
  | showMessage (text : String) (c : Color)
  deriving DecidableEq

/-- The fixed pre-probe delay: `await asyncio.sleep(1)` at line 77, the
"brief delay to show yellow". -/
def pre_probe_delay : Int := 1

/-- One iteration of the `check_host` body (lines 75-94) with probe
outcome `result`: pending colour (line 76), pre-probe delay (line 77),
board write (line 86), settled colour (lines 88-91), then
`asyncio.sleep(interval - 1)` (line 94). -/
def check_host_iter (x y : Int) (result : Bool) (interval : Int) : List Effect :=
  [Effect.setPixel (x - 1) (y - 1) YELLOW,
   Effect.sleep 1,
   Effect.boardWrite (x, y) result,
   Effect.setPixel (x - 1) (y - 1) (if result then GREEN else RED),
   Effect.sleep (interval - 1)]

/-- One iteration of the `blink_color` body (lines 100-104). -/
def blink_iter (x y : Int) (c : Color) (on_duration off_duration : Int) : List Effect :=
  [Effect.setPixel (x - 1) (y - 1) c,
   Effect.sleep on_duration,
   Effect.setPixel (x - 1) (y - 1) OFF,
   Effect.sleep off_duration]

/-- Seconds actually slept by `await asyncio.sleep(delay)`: CPython's
`asyncio.sleep` returns immediately (after one yield to the event loop)
whenever `delay <= 0`, so the effective duration is `max delay 0` and is
never negative. -/
def asyncio_sleep_duration (delay : Int) : Int := max delay 0

/-!
ReachabilityChecker: `ping` (lines 37-51) and `curl` (lines 54-69).  Both
run their command through `asyncio.create_subprocess_shell` and
`proc.communicate()` with no `try/except` anywhere in `ping`, `curl` or
`check_host`.  The external process invocation is embedded by its
outcome: either the awaited calls raise a Python exception
(`spawnError`, e.g. an `OSError` while spawning the shell or an I/O error
in `communicate`) — which the functions do not catch, modelled as
`Except.error` — or the shell completes with a return code, stdout and
stderr.  A command that cannot be started (e.g. `ping` not installed) is
the `completed` case: the shell itself reports it as exit status 127 with
a diagnostic on stderr.
-/

/-- Outcome of one `create_subprocess_shell` + `communicate()` round. -/
inductive ProcOutcome where
  | spawnError (msg : String)
  | completed (returncode : Int) (stdout stderr : String)
  deriving DecidableEq

/-- The `ping` coroutine (lines 37-51): success iff `proc.returncode == 0`
(line 47); stderr is only logged (line 50).  A Python-level exception from
the awaited subprocess calls propagates uncaught. -/
def ping : ProcOutcome → Except String Bool
  | ProcOutcome.spawnError m => Except.error m
  | ProcOutcome.completed rc _ _ => Except.ok (rc == 0)

/-- The `curl` coroutine (lines 54-69): success iff the stripped stdout
(the `%\x7bhttp_code\x7d` write-out) equals `"200"` (lines 64-65); the
return code is ignored and stderr only logged.  A Python-level exception
propagates uncaught. -/
def curl : ProcOutcome → Except String Bool
  | ProcOutcome.spawnError m => Except.error m
  | ProcOutcome.completed _ out _ => Except.ok (out.trim == "200")

/-- The probe dispatch inside the `check_host` body (lines 79-84); an
unknown method raises `ValueError`.  `check_host` wraps none of this in a
handler, so any `Except.error` here leaves the CheckLoop. -/
def check_host_probe (method hostname : String) (outcome : ProcOutcome) :
    Except String Bool :=
  if method = "ping" then ping outcome
  else if method = "curl" then curl outcome
  else Except.error ("ValueError: Invalid method: " ++ method)

/-!
Life of the board across a whole run.  `main` creates one `check_host`
task per ping/curl record; the loop with coordinate `(x, y)` touches
`status_dict` in exactly one place, the assignment at line 86, executed
once per completed probe and always under its own key `(x, y)`.  Nothing
ever deletes a key.  A run is a trace of probe-completion events, each
naming the completing loop (by its index in the configured list) and the
probe's boolean outcome; the interleaving across loops is arbitrary. -/

/-- A probe-completion event: loop index and probe result. -/
abbrev ProbeEvent := Nat × Bool

/-- Effect of one probe completion on the shared state: the owning loop
writes its result under its own coordinate (line 86) and has completed
one more probe cycle.  The second component counts completed probe
cycles per loop index. -/
def traceStep (coords : List Coord) (st : Board × (Nat → Nat)) (e : ProbeEvent) :
    Board × (Nat → Nat) :=
  match coords[e.1]? with
  | some c => (boardSet st.1 c e.2, fun j => if j = e.1 then st.2 e.1 + 1 else st.2 j)
  | none => st

/-- Board and per-loop completed-cycle counts after a trace of probe
completions, starting from the empty dictionary of line 129. -/
def runTrace (coords : List Coord) (tr : List ProbeEvent) : Board × (Nat → Nat) :=
  tr.foldl (traceStep coords) ([], fun _ => 0)

/-- Two loops at `(1, 1)` and `(2, 2)` for the C5 witness. -/
def c5_demo_coords : List Coord := [((1 : Int), (1 : Int)), ((2 : Int), (2 : Int))]

/-- One completed probe of loop 0 for the C5 witness. -/
def c5_demo_tr : List ProbeEvent := [(0, true)]

/-- A continuation with a failing probe of loop 0 for the C5 witness. -/
def c5_demo_ext : List ProbeEvent := [(0, false), (1, true)]

/-!
Startup: the configuration loop of `main` (lines 128-169).  Each CSV row
is `x, y, *args` with `x` and `y` already converted by `int(...)`; the
dispatch on `args` either raises (`IndexError` on a missing element,
`ValueError` from `int(...)`, from tuple unpacking, or from the explicit
`raise` statements at lines 158 and 169) or performs its action:
`"report"` binds the local variable `report_task`; `"ping"`/`"curl"`
appends a task to the `tasks` list (line 148); `"color"` with two extra
arguments creates a blink task that is NOT appended to `tasks` (lines
163-165); `"color"` without extra arguments sets a pixel immediately
(line 167).  The loop body contains no `await`, so none of the created
tasks runs a single step before line 173.  An exception raised here is
outside the `try` at line 172, escapes `main` and `asyncio.run`, and the
Python process exits with a nonzero status; the created tasks never run.
-/

/-- One CSV row after `x = int(x); y = int(y)`: the remaining cells stay
strings. -/
structure ConfigRow where
  x : Int
  y : Int
  args : List String
  deriving DecidableEq

/-- A `check_host` task created at lines 145-147. -/
structure CheckSpec where
  x : Int
  y : Int
  method : String
  hostname : String
  interval : Int
  deriving DecidableEq

/-- A `blink_color` task created at lines 163-165. -/
structure BlinkSpec where
  x : Int
  y : Int
  colour : Color
  on_duration : Int
  off_duration : Int
  deriving DecidableEq

/-- State accumulated by `main`'s configuration loop: pixels already set
(line 167), the `tasks` list (check tasks only, line 148), the blink
tasks created but never added to `tasks`, and the `report_task` local
variable (`some interval` once bound; a later report record rebinds it). -/
structure MainState where
  pixels : List Effect
  check_tasks : List CheckSpec
  blink_tasks : List BlinkSpec
  report_task : Option Int
  deriving DecidableEq

/-- The state when `main` enters the configuration loop. -/
def initialMainState : MainState := ⟨[], [], [], none⟩

/-- Embedding of Python's `str.lower()` (line 150): lowercase every
character. -/
def pyLower (s : String) : String := ⟨s.data.map Char.toLower⟩

def digitVal (c : Char) : Option Nat :=
  if c.isDigit then some (c.toNat - 48) else none

def parseDigits : List Char → Option Nat → Option Nat
  | [], acc => acc
  | c :: rest, acc =>
    match digitVal c, acc with
    | some d, some n => parseDigits rest (some (n * 10 + d))
    | some d, none => parseDigits rest (some d)
    | none, _ => none

/-- Embedding of Python's `int(s)` as used on the CSV cells: an optional
sign followed by at least one decimal digit parses to that integer, and
everything else raises `ValueError` (`none`). -/
def pyInt? (s : String) : Option Int :=
  match s.data with
  | '-' :: rest => (parseDigits rest none).map (fun n => -(n : Int))
  | '+' :: rest => (parseDigits rest none).map (fun n => (n : Int))
  | l => (parseDigits l none).map (fun n => (n : Int))

/-- The colour-name dispatch at lines 150-158, applied to the lowercased
name. -/
def pyColor (name : String) : Option Color :=
  if name = "red" then some RED
  else if name = "green" then some GREEN
  else if name = "yellow" then some YELLOW
  else none

/-- Embedding of one pass of the dispatch at lines 137-169.  Python
`int(...)` is embedded as `String.toInt?`; `Except.error` marks each
statement that raises (`IndexError` for a missing `args[i]`, `ValueError`
for a bad integer literal, for a wrong unpack arity at line 143, for an
unknown colour at line 158, and for an unknown command at line 169). -/
def processRecord (s : MainState) (row : ConfigRow) : Except String MainState :=
  match row.args with
  | [] => Except.error "IndexError: list index out of range"
  | cmd :: rest =>
    if cmd = "report" then
      match rest with
      | [] => Except.error "IndexError: list index out of range"
      | ivStr :: _ =>
        match pyInt? ivStr with
        | none => Except.error "ValueError: invalid literal for int"
        | some iv =>
          Except.ok { s with report_task := some iv }
    else if cmd = "ping" ∨ cmd = "curl" then
      match rest with
      | [hostname, ivStr] =>
        match pyInt? ivStr with
        | none => Except.error "ValueError: invalid literal for int"
        | some iv =>
          Except.ok { s with
            check_tasks := s.check_tasks ++ [⟨row.x, row.y, cmd, hostname, iv⟩] }
      | _ => Except.error "ValueError: tuple unpacking arity"
    else if cmd = "color" then
      match rest with
      | [] => Except.error "IndexError: list index out of range"
      | nameStr :: rest2 =>
        match pyColor (pyLower nameStr) with
        | none => Except.error ("ValueError: Invalid color: " ++ (pyLower nameStr))
        | some c =>
          match rest2 with
          | [] =>
            Except.ok { s with
              pixels := s.pixels ++ [Effect.setPixel (row.x - 1) (row.y - 1) c] }
          | onStr :: rest3 =>
            match pyInt? onStr with
            | none => Except.error "ValueError: invalid literal for int"
            | some onD =>
              match rest3 with
              | [] => Except.error "IndexError: list index out of range"
              | offStr :: _ =>
                match pyInt? offStr with
                | none => Except.error "ValueError: invalid literal for int"
                | some offD =>
                  Except.ok { s with
                    blink_tasks := s.blink_tasks ++ [⟨row.x, row.y, c, onD, offD⟩] }
    else Except.error ("ValueError: Invalid command: " ++ cmd)

/-- The configuration loop: process rows in order; on the first raising
record, stop with the error and the state reached so far (its `pixels`
are already on the display — `sense.set_pixel` at line 167 takes effect
immediately). -/
def processConfig : MainState → List ConfigRow → MainState × Option String
  | s, [] => (s, none)
  | s, row :: rest =>
    match processRecord s row with
    | Except.ok s' => processConfig s' rest
    | Except.error e => (s, some e)

/-- The whole configuration phase of `main` (lines 128-169). -/
def runMain (rows : List ConfigRow) : MainState × Option String :=
  processConfig initialMainState rows

/-- A record of one of the four shapes §6 of the spec accepts: a report
record with an integer interval, a ping/curl check with exactly a target
and an integer interval, a static colour with a known colour name, or a
blink indicator with a known colour name and two integer durations. -/
def recordValid (row : ConfigRow) : Bool :=
  match row.args with
  | [] => false
  | cmd :: rest =>
    if cmd = "report" then
      match rest with
      | [] => false
      | ivStr :: _ => (pyInt? ivStr).isSome
    else if cmd = "ping" ∨ cmd = "curl" then
      match rest with
      | [_, ivStr] => (pyInt? ivStr).isSome
      | _ => false
    else if cmd = "color" then
      match rest with
      | [] => false
      | nameStr :: rest2 =>
        (pyColor (pyLower nameStr)).isSome &&
        (match rest2 with
         | [] => true
         | onStr :: rest3 =>
           (pyInt? onStr).isSome &&
           (match rest3 with
            | [] => false
            | offStr :: _ => (pyInt? offStr).isSome))
    else false

/-- How the process as a whole ends up after `main`'s configuration
phase.  `configError`: a record raised inside the loop; the exception is
outside the `try` of line 172, escapes `asyncio.run`, the process exits
non-zero, and no created task ever runs (the loop body has no `await`).
`gatherUnbound`: the loop finished with `report_task` never assigned, so
evaluating `asyncio.gather(report_task, *tasks)` at line 173 raises
`UnboundLocalError` inside the `try`; it is caught and logged at lines
174-175, `main` returns, remaining tasks are cancelled unrun, and the
process exits normally.  `supervising`: line 173 awaits the report task
and the check tasks forever. -/
inductive ProgramOutcome where
  | configError (pixelsBefore : List Effect) (msg : String)
  | gatherUnbound (s : MainState)
  | supervising (s : MainState)
  deriving DecidableEq

/-- Outcome of a run of `main` on the given configuration rows. -/
def programOutcome (rows : List ConfigRow) : ProgramOutcome :=
  match runMain rows with
  | (s, some e) => ProgramOutcome.configError s.pixels e
  | (s, none) =>
    match s.report_task with
    | none => ProgramOutcome.gatherUnbound s
    | some _ => ProgramOutcome.supervising s

/-- Whether the Python process exits with a nonzero status: true exactly
for an uncaught configuration exception (the `except` at line 174
swallows everything raised at or after line 173, so those paths exit
zero). -/
def exitsNonZero (rows : List ConfigRow) : Bool :=
  match programOutcome rows with
  | ProgramOutcome.configError _ _ => true
  | _ => false

/-- A configuration whose second record is malformed (unknown method
`"foo"`), preceded by a valid static colour record. -/
def c7_demo : List ConfigRow := [⟨1, 1, ["color", "red"]⟩, ⟨2, 2, ["foo"]⟩]

/-!
Supervision (lines 171-175).  `main` awaits
`asyncio.gather(report_task, *tasks)` inside a `try`; `tasks` holds only
the `check_host` tasks (line 148), so `gather` propagates the first
exception raised by the report task or a check task, the `except` clause
logs it with its full traceback (`logger.exception`), `main` returns and
`asyncio.run` cancels every remaining task — the process exits.  The
`blink_color` tasks are created at line 163 but never added to `tasks`:
an exception inside one of them is never retrieved by `gather`, and the
report and check loops keep running.
-/

/-- A reference to one of the concurrent tasks created by `main`. -/
inductive TaskRef where
  | reportTask
  | checkTask (i : Nat)
  | blinkTask (i : Nat)
  deriving DecidableEq

/-- The awaitables passed to `asyncio.gather` at line 173: `report_task`
and the `tasks` list, which contains exactly the check tasks. -/
def gatherArgs (s : MainState) : List TaskRef :=
  TaskRef.reportTask :: (List.range s.check_tasks.length).map TaskRef.checkTask

/-- What happens to the process when one task raises a fatal error. -/
inductive FailureOutcome where
  | loggedThenExit
  | unnoticedOthersContinue
  deriving DecidableEq

/-- Fate of a fatal error in task `t`: if `t` is among the gathered
awaitables, `gather` re-raises it, lines 174-175 log it with full
context and the process exits; otherwise `gather` never sees it and the
remaining loops continue. -/
def onLoopFatalError (s : MainState) (t : TaskRef) : FailureOutcome :=
  if t ∈ gatherArgs s then FailureOutcome.loggedThenExit
  else FailureOutcome.unnoticedOthersContinue

/-- A configuration with a report record and one blink indicator. -/
def c8_demo : List ConfigRow :=
  [⟨1, 1, ["report", "10"]⟩, ⟨2, 2, ["color", "red", "1", "2"]⟩]

/-- A configuration with a report record, one check task and one blink
indicator. -/
def c8_demo_full : List ConfigRow :=
  [⟨1, 1, ["report", "10"]⟩, ⟨2, 2, ["ping", "example.com", "5"]⟩,
   ⟨3, 3, ["color", "red", "1", "2"]⟩]

/-!
Coordinate translation (C9): configured coordinates are 1-based; every
`sense.set_pixel` call subtracts one from each component (lines 76, 89,
91, 101, 103 and 167), while the `status_dict` key at line 86 is the
untranslated `(x, y)` pair.
-/

/-!
Missing report record (C10).  The local variable `report_task` is
assigned only in the `"report"` branch (lines 138-141).  If no record has
that shape, the configuration loop completes without error — nothing
validates the presence of a report record at load time — and the first
use of `report_task` at line 173 raises `UnboundLocalError` inside the
`try`, so the check and indicator loops (created but never yet scheduled)
never run: the gather is abandoned, the exception is logged, and `main`
returns.
-/

/-- A record whose first argument cell is `"report"` (line 137). -/
def isReportRecord (row : ConfigRow) : Bool :=
  match row.args with
  | cmd :: _ => cmd = "report"
  | [] => false

/-- A configuration with one check record and one indicator record but no
report record. -/
def c10_demo : List ConfigRow :=
  [⟨1, 1, ["ping", "example.com", "5"]⟩, ⟨2, 2, ["color", "red", "1", "2"]⟩]

theorem boardGet_set_self (b : Board) (k : Coord) (v : Bool) :
    boardGet (boardSet b k v) k = some v := by
  induction b with
  | nil => simp [boardSet, boardGet]
  | cons p rest ih =>
    by_cases h : p.1 == k
    · simp [boardSet, boardGet, h]
    · simp only [boardSet, boardGet, h, if_neg, Bool.false_eq_true, if_false]
      simpa [h] using ih

theorem boardGet_set_ne (b : Board) (k k' : Coord) (v : Bool) (h : k' ≠ k) :
    boardGet (boardSet b k v) k' = boardGet b k' := by
  induction b with
  | nil =>
    simp only [boardSet, boardGet]
    simp [beq_iff_eq, Ne.symm h]
  | cons p rest ih =>
    by_cases hp : p.1 == k
    · have hpk : p.1 = k := by simpa [beq_iff_eq] using hp
      simp [boardSet, boardGet, hp, hpk, beq_iff_eq, Ne.symm h]
    · simp only [boardSet, hp, Bool.false_eq_true, if_false, boardGet]
      by_cases hpk' : p.1 == k'
      · simp [boardGet, hpk']
      · simp [boardGet, hpk', ih]

theorem boardGet_set_isSome (b : Board) (k k' : Coord) (v : Bool)
    (h : (boardGet b k').isSome = true) :
    (boardGet (boardSet b k v) k').isSome = true := by
  by_cases hk : k' = k
  · subst hk; simp [boardGet_set_self]
  · rw [boardGet_set_ne b k k' v hk]; exact h

theorem boardGet_foldl_mem (ws : List WriteEvent) (b : Board) (k : Coord) (v : Bool)
    (h : boardGet (ws.foldl (fun b w => boardSet b w.1 w.2) b) k = some v) :
    (k, v) ∈ ws ∨ boardGet b k = some v := by
  induction ws generalizing b with
  | nil => exact Or.inr h
  | cons w rest ih =>
    simp only [List.foldl_cons] at h
    rcases ih (boardSet b w.1 w.2) h with hmem | hget
    · exact Or.inl (List.mem_cons_of_mem w hmem)
    · by_cases hk : k = w.1
      · subst hk
        rw [boardGet_set_self] at hget
        have : v = w.2 := by simpa using hget.symm
        subst this
        exact Or.inl (List.mem_cons_self w rest)
      · rw [boardGet_set_ne b w.1 k w.2 hk] at hget
        exact Or.inr hget

/-- C1: for every interleaving of the atomic per-key dictionary writes
performed by the CheckLoops (line 86), any value a reader (the ReportLoop,
lines 111-112) can observe under a key is exactly the value of some single
write to that key: no torn or partial value is ever exposed.  The atomic
steps of the model are the `await`-free statement runs of the `asyncio`
program. -/
theorem c1_per_key_write_atomicity (ws : List WriteEvent) (k : Coord) (v : Bool)
    (h : boardGet (applyWrites ws) k = some v) :
    (k, v) ∈ ws := by
  rcases boardGet_foldl_mem ws [] k v h with hmem | hget
  · exact hmem
  · simp [boardGet] at hget

/-- Witness for C1 at a concrete interleaving of two writes. -/
theorem c1_per_key_write_atomicity_witness :
    (((2 : Int), (3 : Int)), false) ∈
      [(((1 : Int), (1 : Int)), true), (((2 : Int), (3 : Int)), false)] :=
  c1_per_key_write_atomicity
    [(((1 : Int), (1 : Int)), true), (((2 : Int), (3 : Int)), false)]
    ((2 : Int), (3 : Int)) false (by decide)

theorem up_count_le_total (b : Board) :
    (display_report_iter b).up_count ≤ (display_report_iter b).total_count := by
  simp only [display_report_iter]
  calc ((b.map Prod.snd).filter (fun status => status)).length
      ≤ (b.map Prod.snd).length := List.length_filter_le _ _
    _ = b.length := List.length_map _ _

/-- C2: one ReportLoop iteration computes `up` as the number of board
entries whose value is Up (`true`), `total` as the number of board
entries, `down` with `up + down = total` (so `down = total - up`, and the
subtraction at line 113 never truncates since `up ≤ total`), and renders
exactly the message `"{up}/{total} UP {down}/{total} DOWN"` with those
numbers. -/
theorem c2_report_aggregate (b : Board) :
    (display_report_iter b).up_count = (b.map Prod.snd).count true ∧
    (display_report_iter b).total_count = b.length ∧
    (display_report_iter b).up_count + (display_report_iter b).down_count =
      (display_report_iter b).total_count ∧
    (display_report_iter b).down_count =
      (display_report_iter b).total_count - (display_report_iter b).up_count ∧
    (display_report_iter b).message =
      toString (display_report_iter b).up_count ++ "/" ++
      toString (display_report_iter b).total_count ++ " UP " ++
      toString (display_report_iter b).down_count ++ "/" ++
      toString (display_report_iter b).total_count ++ " DOWN" := by
  refine ⟨?_, ?_, ?_, ?_, ?_⟩
  · show ((b.map Prod.snd).filter (fun status => status)).length = _
    rw [List.count, List.countP_eq_length_filter]
    have hfun : (fun status : Bool => status) = (fun x : Bool => x == true) := by
      funext status
      cases status <;> rfl
    rw [hfun]
  · rfl
  · have h := up_count_le_total b
    simp only [display_report_iter] at h ⊢
    omega
  · rfl
  · rfl

/-- C3 counterexample: on the empty board (`total = 0`, before any
CheckLoop has completed a first probe) `up_count == total_count` holds
(`0 == 0`), so line 118 renders the report in GREEN, the success colour —
not the failure colour the claim requires for `total = 0`. -/
theorem c3_empty_board_green :
    (display_report_iter []).total_count = 0 ∧
    (display_report_iter []).colour = GREEN ∧
    GREEN ≠ RED := by
  refine ⟨rfl, rfl, by decide⟩

/-- C3 amended: the ReportLoop renders in the success colour GREEN if and
only if `up = total` (line 117 tests only `up_count == total_count`, with
no guard on `total > 0`), and in the failure colour RED otherwise; in
particular the empty board is rendered in the success colour. -/
theorem c3_colour_rule (b : Board) :
    ((display_report_iter b).colour = GREEN ↔
      (display_report_iter b).up_count = (display_report_iter b).total_count) ∧
    ((display_report_iter b).colour = RED ↔
      (display_report_iter b).up_count ≠ (display_report_iter b).total_count) := by
  simp only [display_report_iter]
  by_cases h : ((b.map Prod.snd).filter (fun status => status)).length = b.length <;>
    simp [h, GREEN, RED]

/-- C6: after the board write and the settled-colour pixel write, the
`check_host` body ends with one `asyncio.sleep(interval - 1)` call (line
94, `pre_probe_delay = 1`), whose effective sleep duration is exactly
`max (interval - pre_probe_delay) 0` and in particular never negative,
even when `interval < pre_probe_delay`. -/
theorem c6_post_write_sleep (x y : Int) (result : Bool) (interval : Int) :
    ∃ pre : List Effect,
      check_host_iter x y result interval = pre ++ [Effect.sleep (interval - 1)] ∧
      Effect.boardWrite (x, y) result ∈ pre ∧
      Effect.setPixel (x - 1) (y - 1) (if result then GREEN else RED) ∈ pre ∧
      asyncio_sleep_duration (interval - 1) =
        max (interval - pre_probe_delay) 0 ∧
      0 ≤ asyncio_sleep_duration (interval - 1) := by
  refine ⟨[Effect.setPixel (x - 1) (y - 1) YELLOW,
           Effect.sleep 1,
           Effect.boardWrite (x, y) result,
           Effect.setPixel (x - 1) (y - 1) (if result then GREEN else RED)],
          rfl, by simp, by simp, rfl, le_max_right _ _⟩

/-- C4 counterexample: a probe whose process execution errors at the
process level (the awaited `create_subprocess_shell`/`communicate` raises,
e.g. `OSError`) does not return `success = false` — the exception
propagates out of `ping` and through `check_host`, which has no handler. -/
theorem c4_spawn_error_raises :
    ping (ProcOutcome.spawnError "OSError") ≠ Except.ok false ∧
    ping (ProcOutcome.spawnError "OSError") = Except.error "OSError" ∧
    check_host_probe "ping" "example.com" (ProcOutcome.spawnError "OSError") =
      Except.error "OSError" := by
  refine ⟨by simp [ping], rfl, rfl⟩

/-- C4 amended: a probe whose command fails at the shell level — any
nonzero exit status for `ping`, including 127 when the command cannot be
started by the shell, and any non-"200" body for `curl` — returns
`success = false` with the error only logged, and no exception; but a
Python-level process error (`create_subprocess_shell` or `communicate`
raising) is not caught anywhere in `ping`, `curl` or `check_host` and
propagates past the CheckLoop boundary. -/
theorem c4_probe_error_handling :
    (∀ rc out err : _, rc ≠ (0 : Int) →
      ping (ProcOutcome.completed rc out err) = Except.ok false) ∧
    (∀ rc out err : _, out.trim ≠ "200" →
      curl (ProcOutcome.completed rc out err) = Except.ok false) ∧
    (∀ m, ping (ProcOutcome.spawnError m) = Except.error m) ∧
    (∀ m hostname, check_host_probe "ping" hostname (ProcOutcome.spawnError m) =
      Except.error m) := by
  refine ⟨?_, ?_, fun m => rfl, fun m _ => rfl⟩
  · intro rc out err h
    simp [ping, h]
  · intro rc out err h
    simp [curl, h]

/-- Witness for C4 amended: command not found, reported by the shell as
exit status 127, yields `success = false`. -/
theorem c4_probe_error_handling_witness :
    ping (ProcOutcome.completed 127 "" "sh: ping: command not found") =
      Except.ok false :=
  c4_probe_error_handling.1 127 "" "sh: ping: command not found" (by decide)

theorem traceStep_presence_inv (coords : List Coord) (hnodup : coords.Nodup)
    (st : Board × (Nat → Nat))
    (hst : ∀ i : Nat, ∀ c : Coord, coords[i]? = some c →
      ((boardGet st.1 c).isSome = true ↔ 0 < st.2 i))
    (e : ProbeEvent) :
    ∀ i : Nat, ∀ c : Coord, coords[i]? = some c →
      ((boardGet (traceStep coords st e).1 c).isSome = true ↔
        0 < (traceStep coords st e).2 i) := by
  intro i c hc
  unfold traceStep
  cases hj : coords[e.1]? with
  | none => exact hst i c hc
  | some cj =>
    by_cases hij : i = e.1
    · subst hij
      rw [hc] at hj
      injection hj with hcc
      subst hcc
      simp [boardGet_set_self]
    · obtain ⟨hi, hci⟩ := List.getElem?_eq_some.mp hc
      obtain ⟨hjlt, hcj⟩ := List.getElem?_eq_some.mp hj
      have hne : c ≠ cj := by
        intro hcontra
        apply hij
        have : coords[i] = coords[e.1] := by rw [hci, hcj, hcontra]
        exact (List.Nodup.getElem_inj_iff hnodup).mp this
      simp only []
      rw [boardGet_set_ne st.1 cj c e.2 hne]
      simp only [if_neg hij]
      exact hst i c hc

theorem runTrace_presence_aux (coords : List Coord) (hnodup : coords.Nodup)
    (tr : List ProbeEvent) (st : Board × (Nat → Nat))
    (hst : ∀ i : Nat, ∀ c : Coord, coords[i]? = some c →
      ((boardGet st.1 c).isSome = true ↔ 0 < st.2 i)) :
    ∀ i : Nat, ∀ c : Coord, coords[i]? = some c →
      ((boardGet (tr.foldl (traceStep coords) st).1 c).isSome = true ↔
        0 < (tr.foldl (traceStep coords) st).2 i) := by
  induction tr generalizing st with
  | nil => exact hst
  | cons e rest ih =>
    simp only [List.foldl_cons]
    exact ih (traceStep coords st e) (traceStep_presence_inv coords hnodup st hst e)

theorem foldl_traceStep_mono (coords : List Coord) (tr : List ProbeEvent)
    (st : Board × (Nat → Nat)) (k : Coord)
    (h : (boardGet st.1 k).isSome = true) :
    (boardGet (tr.foldl (traceStep coords) st).1 k).isSome = true := by
  induction tr generalizing st with
  | nil => exact h
  | cons e rest ih =>
    simp only [List.foldl_cons]
    apply ih
    unfold traceStep
    cases coords[e.1]? with
    | none => exact h
    | some c => exact boardGet_set_isSome st.1 c k e.2 h

/-- C5: for distinct configured coordinates (the spec's input invariant),
after any trace of probe completions the key of loop `i` is present in
`status_dict` if and only if loop `i` has completed at least one probe
cycle (the write at line 86 runs exactly once per completed probe, and is
the only statement that ever inserts the key); and once present the key
stays present under any continuation of the run, even if later probes
fail — nothing ever deletes a board key. -/
theorem c5_key_presence (coords : List Coord) (hnodup : coords.Nodup)
    (i : Nat) (c : Coord) (hc : coords[i]? = some c)
    (tr ext : List ProbeEvent) :
    ((boardGet (runTrace coords tr).1 c).isSome = true ↔
      0 < (runTrace coords tr).2 i) ∧
    ((boardGet (runTrace coords tr).1 c).isSome = true →
      (boardGet (runTrace coords (tr ++ ext)).1 c).isSome = true) := by
  constructor
  · exact runTrace_presence_aux coords hnodup tr ([], fun _ => 0)
      (by intro j d _; simp [boardGet]) i c hc
  · intro h
    unfold runTrace at h ⊢
    rw [List.foldl_append]
    exact foldl_traceStep_mono coords ext _ c h

/-- Witness for C5: after loop 0's first probe its key is present and
its cycle count positive, and the key survives a later failing probe. -/
theorem c5_key_presence_witness :
    ((boardGet (runTrace c5_demo_coords c5_demo_tr).1 ((1 : Int), (1 : Int))).isSome = true ↔
      0 < (runTrace c5_demo_coords c5_demo_tr).2 0) ∧
    ((boardGet (runTrace c5_demo_coords c5_demo_tr).1 ((1 : Int), (1 : Int))).isSome = true →
      (boardGet (runTrace c5_demo_coords (c5_demo_tr ++ c5_demo_ext)).1
        ((1 : Int), (1 : Int))).isSome = true) :=
  c5_key_presence c5_demo_coords (by decide) 0 ((1 : Int), (1 : Int)) (by decide)
    c5_demo_tr c5_demo_ext

/-- Processing a record succeeds exactly on the four accepted shapes,
independently of the accumulated state. -/
theorem processRecord_ok_iff (s : MainState) (row : ConfigRow) :
    (∃ s', processRecord s row = Except.ok s') ↔ recordValid row = true := by
  rcases row with ⟨x, y, args⟩
  simp only [processRecord, recordValid]
  cases args with
  | nil => simp
  | cons cmd rest =>
    by_cases h1 : cmd = "report"
    · simp only [h1, if_true]
      cases rest with
      | nil => simp
      | cons ivStr rest2 => cases hiv : pyInt? ivStr <;> simp [hiv]
    · by_cases h2 : cmd = "ping" ∨ cmd = "curl"
      · simp only [h1, h2, if_false, if_true, iff_true]
        match rest with
        | [] => simp
        | [hostname] => simp
        | [hostname, ivStr] => cases hiv : pyInt? ivStr <;> simp [hiv]
        | hostname :: ivStr :: z :: more => simp
      · by_cases h3 : cmd = "color"
        · simp only [h1, h2, h3, if_false, if_true]
          cases rest with
          | nil => simp
          | cons nameStr rest2 =>
            cases hcol : pyColor (pyLower nameStr) with
            | none => simp [hcol]
            | some c =>
              simp only [hcol, Option.isSome_some, Bool.true_and]
              cases rest2 with
              | nil => simp
              | cons onStr rest3 =>
                cases hon : pyInt? onStr with
                | none => simp [hon]
                | some onD =>
                  simp only [hon, Option.isSome_some, Bool.true_and]
                  cases rest3 with
                  | nil => simp
                  | cons offStr rest4 =>
                    cases hoff : pyInt? offStr <;> simp [hoff]
        · simp [h1, h2, h3]

theorem processConfig_error_iff (s : MainState) (rows : List ConfigRow) :
    (processConfig s rows).2.isSome = true ↔
      ∃ row ∈ rows, recordValid row = false := by
  induction rows generalizing s with
  | nil => simp [processConfig]
  | cons row rest ih =>
    cases hp : processRecord s row with
    | ok s' =>
      have hv : recordValid row = true :=
        (processRecord_ok_iff s row).mp ⟨s', hp⟩
      simp only [processConfig, hp]
      rw [ih s']
      constructor
      · intro ⟨r, hr, hrv⟩
        exact ⟨r, List.mem_cons_of_mem row hr, hrv⟩
      · intro ⟨r, hr, hrv⟩
        rcases List.mem_cons.mp hr with hre | hrm
        · subst hre; rw [hv] at hrv; cases hrv
        · exact ⟨r, hrm, hrv⟩
    | error e =>
      have hv : recordValid row = false := by
        by_contra hcontra
        have : recordValid row = true := by
          cases hrv : recordValid row
          · exact absurd hrv hcontra
          · rfl
        obtain ⟨s', hs'⟩ := (processRecord_ok_iff s row).mpr this
        rw [hp] at hs'
        cases hs'
      simp only [processConfig, hp, Option.isSome_some, true_iff]
      exact ⟨row, List.mem_cons_self row rest, hv⟩

/-- C7 counterexample: with a valid static colour record before the
malformed one, startup does raise and exit non-zero — but only after the
pixel of the earlier record has already been set (line 167 runs
immediately for each record in order), so the abort does not happen
"before any pixel is set". -/
theorem c7_pixel_set_before_abort :
    exitsNonZero c7_demo = true ∧
    (runMain c7_demo).1.pixels = [Effect.setPixel 0 0 RED] := by
  constructor <;> rfl

/-- C7 amended: a configuration containing a record of none of the four
accepted shapes (or with an unknown colour name) makes startup raise a
fatal configuration error: the exception escapes `main` before the
`await asyncio.gather` of line 173, no created loop task ever executes,
and the process exits non-zero — but pixels of earlier valid static
colour records may already have been set by then. -/
theorem c7_invalid_config_fatal (rows : List ConfigRow)
    (h : ∃ row ∈ rows, recordValid row = false) :
    (∃ effs msg, programOutcome rows = ProgramOutcome.configError effs msg) ∧
    exitsNonZero rows = true := by
  have herr : (runMain rows).2.isSome = true :=
    (processConfig_error_iff initialMainState rows).mpr h
  have : ∃ effs msg, programOutcome rows = ProgramOutcome.configError effs msg := by
    unfold programOutcome
    cases hrm : runMain rows with
    | mk s o =>
      cases o with
      | none => rw [hrm] at herr; simp at herr
      | some e => exact ⟨s.pixels, e, rfl⟩
  refine ⟨this, ?_⟩
  obtain ⟨effs, msg, hout⟩ := this
  unfold exitsNonZero
  rw [hout]

/-- Witness for C7 amended at the two-record demo configuration. -/
theorem c7_invalid_config_fatal_witness :
    (∃ effs msg, programOutcome c7_demo = ProgramOutcome.configError effs msg) ∧
    exitsNonZero c7_demo = true :=
  c7_invalid_config_fatal c7_demo ⟨⟨2, 2, ["foo"]⟩, by decide, by decide⟩

/-- C8 counterexample: this configuration creates an IndicatorLoop
(blink task), but its task is not among the awaitables of
`asyncio.gather` (line 173 gathers only `report_task` and the check
`tasks` list), so a fatal error inside the IndicatorLoop is never
retrieved and the other loops continue — the Supervisor does not tear the
process down for every loop. -/
theorem c8_blink_error_unnoticed :
    (runMain c8_demo).1.blink_tasks.length = 1 ∧
    onLoopFatalError (runMain c8_demo).1 (TaskRef.blinkTask 0) =
      FailureOutcome.unnoticedOthersContinue := by
  constructor <;> rfl

/-- C8 amended: a fatal error in the ReportLoop or in any CheckLoop is
re-raised by `asyncio.gather`, logged with its full context by the
`except` clause of lines 174-175, and the process exits; but a fatal
error in an IndicatorLoop (`blink_color` task, never appended to the
gathered `tasks` list) is not noticed by the supervisor and the other
loops continue running. -/
theorem c8_supervision_scope (rows : List ConfigRow) (i : Nat) :
    onLoopFatalError (runMain rows).1 TaskRef.reportTask =
      FailureOutcome.loggedThenExit ∧
    (i < (runMain rows).1.check_tasks.length →
      onLoopFatalError (runMain rows).1 (TaskRef.checkTask i) =
        FailureOutcome.loggedThenExit) ∧
    onLoopFatalError (runMain rows).1 (TaskRef.blinkTask i) =
      FailureOutcome.unnoticedOthersContinue := by
  refine ⟨?_, ?_, ?_⟩
  · have hmem : TaskRef.reportTask ∈ gatherArgs (runMain rows).1 :=
      List.mem_cons_self _ _
    simp [onLoopFatalError, hmem]
  · intro hi
    have hmem : TaskRef.checkTask i ∈ gatherArgs (runMain rows).1 :=
      List.mem_cons_of_mem _
        (List.mem_map_of_mem TaskRef.checkTask (List.mem_range.mpr hi))
    simp [onLoopFatalError, hmem]
  · have hmem : TaskRef.blinkTask i ∉ gatherArgs (runMain rows).1 := by
      intro hmem
      rcases List.mem_cons.mp hmem with habs | habs
      · cases habs
      · rcases List.mem_map.mp habs with ⟨j, _, habs⟩
        cases habs
    simp [onLoopFatalError, hmem]

/-- Witness for C8 amended: the one configured CheckLoop is supervised. -/
theorem c8_supervision_scope_witness :
    onLoopFatalError (runMain c8_demo_full).1 (TaskRef.checkTask 0) =
      FailureOutcome.loggedThenExit :=
  (c8_supervision_scope c8_demo_full 0).2.1 (by decide)

theorem processRecord_pixels (s s' : MainState) (row : ConfigRow)
    (h : processRecord s row = Except.ok s') :
    s'.pixels = s.pixels ∨
    ∃ c : Color, s'.pixels =
      s.pixels ++ [Effect.setPixel (row.x - 1) (row.y - 1) c] := by
  rcases row with ⟨x, y, args⟩
  unfold processRecord at h
  repeat' split at h
  all_goals first
    | (injection h with h; subst h; exact Or.inl rfl)
    | (injection h with h; subst h; exact Or.inr ⟨_, rfl⟩)
    | injection h

/-- C9: within one `check_host` iteration every pixel write addresses
`(x - 1, y - 1)` while the board write uses the untranslated key
`(x, y)`; within one `blink_color` iteration every pixel write addresses
`(x - 1, y - 1)`; and the static-colour branch of `main` (line 167) only
ever adds a pixel write at `(x - 1, y - 1)` of the record's
coordinates. -/
theorem c9_one_based_coordinates :
    (∀ x y interval px py : Int, ∀ result : Bool, ∀ c : Color,
      Effect.setPixel px py c ∈ check_host_iter x y result interval →
        px = x - 1 ∧ py = y - 1) ∧
    (∀ x y interval : Int, ∀ result v : Bool, ∀ k : Coord,
      Effect.boardWrite k v ∈ check_host_iter x y result interval →
        k = (x, y)) ∧
    (∀ x y on_duration off_duration px py : Int, ∀ c cp : Color,
      Effect.setPixel px py cp ∈ blink_iter x y c on_duration off_duration →
        px = x - 1 ∧ py = y - 1) ∧
    (∀ s s' : MainState, ∀ row : ConfigRow, ∀ px py : Int, ∀ c : Color,
      processRecord s row = Except.ok s' →
      Effect.setPixel px py c ∈ s'.pixels →
        Effect.setPixel px py c ∈ s.pixels ∨
          (px = row.x - 1 ∧ py = row.y - 1)) := by
  refine ⟨?_, ?_, ?_, ?_⟩
  · intro x y interval px py result c hmem
    simp [check_host_iter] at hmem
    tauto
  · intro x y interval result v k hmem
    simp [check_host_iter] at hmem
    tauto
  · intro x y on_duration off_duration px py c cp hmem
    simp [blink_iter] at hmem
    tauto
  · intro s s' row px py c hok hmem
    rcases processRecord_pixels s s' row hok with hsame | ⟨cp, happ⟩
    · rw [hsame] at hmem
      exact Or.inl hmem
    · rw [happ] at hmem
      rcases List.mem_append.mp hmem with hold | hnew
      · exact Or.inl hold
      · simp only [List.mem_cons, List.not_mem_nil, or_false] at hnew
        injection hnew with h1 h2 h3
        exact Or.inr ⟨h1, h2⟩

/-- Witness for C9 at a concrete check iteration, blink iteration and
static-colour record. -/
theorem c9_one_based_coordinates_witness :
    (((4 : Int) = 5 - 1 ∧ (6 : Int) = 7 - 1) ∧
      (((5 : Int), (7 : Int)) = ((5 : Int), (7 : Int)))) ∧
    ((2 : Int) = 3 - 1 ∧ (3 : Int) = 4 - 1) ∧
    (Effect.setPixel 0 0 RED ∈ initialMainState.pixels ∨
      ((0 : Int) = 1 - 1 ∧ (0 : Int) = 1 - 1)) :=
  ⟨⟨c9_one_based_coordinates.1 5 7 10 4 6 true YELLOW (by decide),
    c9_one_based_coordinates.2.1 5 7 10 true true ((5 : Int), (7 : Int)) (by decide)⟩,
   c9_one_based_coordinates.2.2.1 3 4 1 2 2 3 GREEN GREEN (by decide),
   c9_one_based_coordinates.2.2.2 initialMainState
     ⟨[Effect.setPixel 0 0 RED], [], [], none⟩ ⟨1, 1, ["color", "red"]⟩ 0 0 RED
     rfl (by decide)⟩

theorem processRecord_report_task (s s' : MainState) (row : ConfigRow)
    (h : processRecord s row = Except.ok s')
    (hnr : isReportRecord row = false) :
    s'.report_task = s.report_task := by
  rcases row with ⟨x, y, args⟩
  cases args with
  | nil => simp [processRecord] at h
  | cons cmd rest =>
    simp only [isReportRecord] at hnr
    rw [decide_eq_false_iff_not] at hnr
    unfold processRecord at h
    dsimp only at h
    rw [if_neg hnr] at h
    repeat' split at h
    all_goals first
      | (injection h with h; subst h; rfl)
      | injection h

theorem processConfig_report_task (s : MainState) (rows : List ConfigRow)
    (hnr : ∀ row ∈ rows, isReportRecord row = false) :
    (processConfig s rows).1.report_task = s.report_task := by
  induction rows generalizing s with
  | nil => rfl
  | cons row rest ih =>
    simp only [processConfig]
    cases hp : processRecord s row with
    | ok s' =>
      have := processRecord_report_task s s' row hp
        (hnr row (List.mem_cons_self row rest))
      rw [ih s' (fun r hr => hnr r (List.mem_cons_of_mem row hr))]
      exact this
    | error e => rfl

/-- C10: for a configuration of well-formed records none of which is a
report record, the configuration loop itself raises nothing — the
expectation of a report record is not validated at load time — but
`report_task` is never assigned, so `main` reaches line 173 with the
variable unbound and the run ends in the `UnboundLocalError` path
instead of supervising the configured check and indicator loops. -/
theorem c10_missing_report_unbound (rows : List ConfigRow)
    (hvalid : ∀ row ∈ rows, recordValid row = true)
    (hnr : ∀ row ∈ rows, isReportRecord row = false) :
    (runMain rows).2 = none ∧
    (runMain rows).1.report_task = none ∧
    programOutcome rows = ProgramOutcome.gatherUnbound (runMain rows).1 := by
  have h2 : (runMain rows).2 = none := by
    have hns : ¬(processConfig initialMainState rows).2.isSome = true := by
      rw [processConfig_error_iff initialMainState rows]
      intro ⟨r, hr, hrv⟩
      rw [hvalid r hr] at hrv
      cases hrv
    cases ho : (runMain rows).2 with
    | none => rfl
    | some e =>
      exfalso
      apply hns
      show (runMain rows).2.isSome = true
      rw [ho]
      rfl
  have hrt : (runMain rows).1.report_task = none :=
    processConfig_report_task initialMainState rows hnr
  refine ⟨h2, hrt, ?_⟩
  unfold programOutcome
  unfold runMain at h2 hrt ⊢
  rcases hpc : processConfig initialMainState rows with ⟨s, o⟩
  rw [hpc] at h2 hrt
  dsimp only at h2 hrt
  subst h2
  dsimp only
  rw [hrt]

/-- Witness for C10 at the report-less demo configuration. -/
theorem c10_missing_report_unbound_witness :
    (runMain c10_demo).2 = none ∧
    (runMain c10_demo).1.report_task = none ∧
    programOutcome c10_demo = ProgramOutcome.gatherUnbound (runMain c10_demo).1 :=
  c10_missing_report_unbound c10_demo (by decide) (by decide)

end Monit
